import Mathlib

/-!
Verification of the MLX sidecar server (`server.py`): a shallow embedding of
its session state, command dispatcher, NDJSON read loop and structured-output
extraction, together with theorems settling the specification claims.

Modelling conventions:
* Python strings are Lean `String`s; the string helpers below reimplement the
  exact Python methods the source uses (`strip`, `strip(chars)`, `split`,
  `replace`, `startswith`, slicing).
* JSON values are the inductive `Json`; `json_loads` reimplements the fragment
  of Python's `json.loads` exercised by the protocol (objects, arrays,
  strings with escapes, integers, booleans, null).  Fractional/exponent
  numeric literals and unpaired surrogate escapes are outside the fragment any
  claim exercises and are treated as parse failures; parser error messages are
  descriptive stand-ins for CPython's (no claim pins their text).
* External collaborators (the MLX backend loaders and generators, librosa,
  the filesystem, HuggingFace downloads) are fields of an `Env` record: each
  is a function returning `Except`, mirroring "returns or raises".
-/

namespace MlxServer

/-! ### Python string helpers -/

/-- Characters removed by Python's argumentless `str.strip()`. -/
def pyWsChar (c : Char) : Bool :=
  c = ' ' || c = '\t' || c = '\n' || c = '\r' || c = '\x0b' || c = '\x0c'

/-- Strip characters satisfying `p` from both ends of a character list. -/
def stripCharsL (p : Char → Bool) (cs : List Char) : List Char :=
  ((cs.dropWhile p).reverse.dropWhile p).reverse

/-- Python `s.strip()`. -/
def pyStrip (s : String) : String := ⟨stripCharsL pyWsChar s.data⟩

/-- Python `s.strip(chars)`: strip any of the given characters from both ends. -/
def pyStripSet (chars : List Char) (s : String) : String :=
  ⟨stripCharsL (fun c => chars.contains c) s.data⟩

/-- Python `s.split(sep)` for a one-character separator (keeps empty pieces). -/
def splitOnCharL (sep : Char) : List Char → List (List Char)
  | [] => [[]]
  | c :: cs =>
    if c = sep then [] :: splitOnCharL sep cs
    else
      match splitOnCharL sep cs with
      | [] => [[c]]
      | g :: gs => (c :: g) :: gs

/-- Prefix test on character lists (Python `startswith`). -/
def startsWithL : List Char → List Char → Bool
  | _, [] => true
  | [], _ :: _ => false
  | c :: cs, p :: ps => c = p && startsWithL cs ps

/-- Python `s[:n]` for a nonnegative slice bound. -/
def pyTake (n : Nat) (s : String) : String := ⟨s.data.take n⟩

/-- Join character-list lines with a newline (Python `"\n".join`). -/
def joinLinesL : List (List Char) → List Char
  | [] => []
  | [l] => l
  | l :: ls => l ++ '\n' :: joinLinesL ls

/-! ### JSON values -/

/-- JSON values as produced by `json.loads`.  Objects keep their key/value
pairs in source order; lookups take the last binding, matching Python dicts
built by the decoder. -/
inductive Json where
  | null
  | bool (value : Bool)
  | num (value : Int)
  | str (value : String)
  | arr (items : List Json)
  | obj (pairs : List (String × Json))

/-- Last-binding-wins lookup in an object's field list (Python dict lookup). -/
def jgetList (fields : List (String × Json)) (k : String) : Option Json :=
  match fields with
  | [] => none
  | (k', v) :: rest =>
    match jgetList rest k with
    | some r => some r
    | none => if k' = k then some v else none

/-- Python `d.get(k)`: `none` when the value is not a dict or lacks the key. -/
def jget (j : Json) (k : String) : Option Json :=
  match j with
  | .obj fs => jgetList fs k
  | _ => none

/-- Python `d.get(k, default)`. -/
def jgetD (j : Json) (k : String) (d : Json) : Json := (jget j k).getD d

/-- Python truthiness of a decoded JSON value. -/
def jtruthy : Json → Bool
  | .null => false
  | .bool b => b
  | .num n => !(n == 0)
  | .str s => !(s == "")
  | .arr xs => !xs.isEmpty
  | .obj fs => !fs.isEmpty

/-- Truthiness of an optional value (`d.get(k)` result; `None` is falsy). -/
def jtruthyOpt : Option Json → Bool
  | none => false
  | some v => jtruthy v

/-- Escape a character for Python `repr` of a string quoted by `q`. -/
def pyEscapeChar (q c : Char) : List Char :=
  if c = '\\' then ['\\', '\\']
  else if c = q then ['\\', q]
  else if c = '\n' then ['\\', 'n']
  else if c = '\r' then ['\\', 'r']
  else if c = '\t' then ['\\', 't']
  else [c]

/-- Python `repr` of a string: single-quoted unless the string contains a
single quote and no double quote.  (Control characters other than the three
escaped above are not exercised by any claim.) -/
def pyReprStr (s : String) : String :=
  let q : Char := if s.data.contains '\'' && !(s.data.contains '"') then '"' else '\''
  ⟨q :: (s.data.flatMap (pyEscapeChar q) ++ [q])⟩

mutual

/-- Python `repr` of a decoded JSON value. -/
def pyRepr : Json → String
  | .null => "None"
  | .bool true => "True"
  | .bool false => "False"
  | .num n => toString n
  | .str s => pyReprStr s
  | .arr xs => "[" ++ String.intercalate ", " (pyReprElems xs) ++ "]"
  | .obj fs => "\x7b" ++ String.intercalate ", " (pyReprFields fs) ++ "\x7d"

/-- `repr` of list elements. -/
def pyReprElems : List Json → List String
  | [] => []
  | x :: xs => pyRepr x :: pyReprElems xs

/-- `repr` of dict entries. -/
def pyReprFields : List (String × Json) → List String
  | [] => []
  | (k, v) :: fs => (pyReprStr k ++ ": " ++ pyRepr v) :: pyReprFields fs

end

/-- Python `str` of a decoded JSON value (as used in f-strings). -/
def pyStr : Json → String
  | .str s => s
  | j => pyRepr j

/-! ### The JSON decoder (`json.loads`) -/

/-- Whitespace skipped between JSON tokens. -/
def jsonWsChar (c : Char) : Bool := c = ' ' || c = '\t' || c = '\n' || c = '\r'

/-- Skip inter-token whitespace. -/
def skipWs (cs : List Char) : List Char := cs.dropWhile jsonWsChar

/-- Value of a hexadecimal digit, via its code point. -/
def hexDigitVal (c : Char) : Option Nat :=
  let n := c.toNat
  if 48 ≤ n && n ≤ 57 then some (n - 48)
  else if 97 ≤ n && n ≤ 102 then some (n - 87)
  else if 65 ≤ n && n ≤ 70 then some (n - 55)
  else none

/-- Body of a JSON string literal, after the opening quote; `acc` holds the
decoded characters in reverse. -/
def parseStringBody (acc : List Char) : List Char → Except String (String × List Char)
  | [] => .error "Unterminated string"
  | '"' :: rest => .ok (⟨acc.reverse⟩, rest)
  | '\\' :: rest =>
    match rest with
    | '"' :: r => parseStringBody ('"' :: acc) r
    | '\\' :: r => parseStringBody ('\\' :: acc) r
    | '/' :: r => parseStringBody ('/' :: acc) r
    | 'b' :: r => parseStringBody ('\x08' :: acc) r
    | 'f' :: r => parseStringBody ('\x0c' :: acc) r
    | 'n' :: r => parseStringBody ('\n' :: acc) r
    | 'r' :: r => parseStringBody ('\r' :: acc) r
    | 't' :: r => parseStringBody ('\t' :: acc) r
    | 'u' :: a :: b :: c :: d :: r =>
      match hexDigitVal a, hexDigitVal b, hexDigitVal c, hexDigitVal d with
      | some ha, some hb, some hc, some hd =>
        let n := ((ha * 16 + hb) * 16 + hc) * 16 + hd
        if 0xd800 ≤ n && n ≤ 0xdfff then .error "Surrogate escape outside modelled fragment"
        else parseStringBody (Char.ofNat n :: acc) r
      | _, _, _, _ => .error "Invalid \\uXXXX escape"
    | _ => .error "Invalid \\escape"
  | c :: rest =>
    if c.toNat < 32 then .error "Invalid control character"
    else parseStringBody (c :: acc) rest

/-- Decimal value of a digit list. -/
def digitsToNat (digits : List Char) : Nat :=
  digits.foldl (fun acc d => 10 * acc + (d.toNat - 48)) 0

/-- A JSON number literal.  Integer literals only: the server's protocol never
carries fractional numbers, so a `.`/`e` continuation is a parse failure in
this embedding rather than a float. -/
def parseNumber (cs : List Char) : Except String (Json × List Char) :=
  let (isNeg, body) :=
    match cs with
    | '-' :: tl => (true, tl)
    | _ => (false, cs)
  let digits := body.takeWhile (·.isDigit)
  let rest := body.drop digits.length
  if digits.isEmpty then .error "Expecting value"
  else if digits.length > 1 && digits.headI = '0' then .error "Expecting value"
  else
    match rest with
    | '.' :: _ => .error "Fractional literal outside modelled fragment"
    | 'e' :: _ => .error "Exponent literal outside modelled fragment"
    | 'E' :: _ => .error "Exponent literal outside modelled fragment"
    | _ =>
      let magnitude : Int := Int.ofNat (digitsToNat digits)
      .ok (.num (if isNeg then -magnitude else magnitude), rest)

mutual

/-- One JSON value (fuelled recursive descent; `json_loads` supplies ample fuel). -/
def parseVal : Nat → List Char → Except String (Json × List Char)
  | 0, _ => .error "Out of fuel"
  | fuel + 1, cs =>
    match skipWs cs with
    | [] => .error "Expecting value"
    | 't' :: 'r' :: 'u' :: 'e' :: more => .ok (.bool true, more)
    | 'f' :: 'a' :: 'l' :: 's' :: 'e' :: more => .ok (.bool false, more)
    | 'n' :: 'u' :: 'l' :: 'l' :: more => .ok (.null, more)
    | '"' :: r =>
      match parseStringBody [] r with
      | .ok (s, rest) => .ok (.str s, rest)
      | .error e => .error e
    | '[' :: r =>
      (match skipWs r with
       | ']' :: r2 => .ok (.arr [], r2)
       | _ => parseElems fuel r [])
    | '\x7b' :: r =>
      (match skipWs r with
       | '\x7d' :: r2 => .ok (.obj [], r2)
       | _ => parseFields fuel r [])
    | c :: rest =>
      if c = '-' || c.isDigit then parseNumber (c :: rest)
      else .error "Expecting value"

/-- Comma-separated array elements up to the closing bracket. -/
def parseElems : Nat → List Char → List Json → Except String (Json × List Char)
  | 0, _, _ => .error "Out of fuel"
  | fuel + 1, cs, acc =>
    match parseVal fuel cs with
    | .error e => .error e
    | .ok (v, rest) =>
      match skipWs rest with
      | ',' :: r => parseElems fuel r (v :: acc)
      | ']' :: r => .ok (.arr (v :: acc).reverse, r)
      | _ => .error "Expecting , or ] delimiter"

/-- Comma-separated object members up to the closing brace. -/
def parseFields : Nat → List Char → List (String × Json) →
    Except String (Json × List Char)
  | 0, _, _ => .error "Out of fuel"
  | fuel + 1, cs, acc =>
    match skipWs cs with
    | '"' :: r =>
      match parseStringBody [] r with
      | .error e => .error e
      | .ok (k, rest) =>
        match skipWs rest with
        | ':' :: r2 =>
          (match parseVal fuel r2 with
           | .error e => .error e
           | .ok (v, rest2) =>
             match skipWs rest2 with
             | ',' :: r3 => parseFields fuel r3 ((k, v) :: acc)
             | '\x7d' :: r3 => .ok (.obj ((k, v) :: acc).reverse, r3)
             | _ => .error "Expecting , or \x7d delimiter")
        | _ => .error "Expecting : delimiter"
    | _ => .error "Expecting property name enclosed in double quotes"

end

/-- Python `json.loads`: decode one JSON document, allowing surrounding
whitespace, rejecting trailing data. -/
def json_loads (s : String) : Except String Json :=
  match parseVal (2 * s.length + 8) s.data with
  | .error e => .error e
  | .ok (v, rest) =>
    if (skipWs rest).isEmpty then .ok v else .error "Extra data"

/-! ### Structured-output extraction -/

/-- The first match of `re.search(r'\[.*?\]', text, re.DOTALL)`: the span from
the first `[` through the first `]` at or after it (leftmost start, lazy
extension; DOTALL lets `.` cross newlines, so positions alone decide). -/
def findBracketSpan (cs : List Char) : Option (List Char) :=
  match cs.dropWhile (· != '[') with
  | [] => none
  | _ :: rest =>
    let inner := rest.takeWhile (· != ']')
    if inner.length < rest.length then some ('[' :: inner ++ [']']) else none

/-- `MLXServer._parse_tags`: extract a JSON array from the model response,
falling back to bracket-stripping and comma/newline splitting. -/
def parse_tags (response : String) : List String :=
  let text := pyStrip response
  let viaJson : Option (List String) :=
    match findBracketSpan text.data with
    | some span =>
      match json_loads ⟨span⟩ with
      | .ok (.arr tags) =>
        some (((tags.map (fun t => pyStrip (pyStr t)))).filter (fun s => s ≠ ""))
      | _ => none
    | none => none
  match viaJson with
  | some r => r
  | none =>
    let text2 := pyStripSet ['[', ']'] text
    let pieces := splitOnCharL ',' (text2.data.map (fun c => if c = '\n' then ',' else c))
    let tags := pieces.map (fun p => pyStripSet ['"', '\''] (pyStrip ⟨p⟩))
    tags.filter (fun t => t ≠ "")

/-- The markdown-fence stripping shared by `generate_transcript` and
`copilot_analyze`: if the (already stripped) text starts with a fence marker,
drop every line whose stripped form starts with one, rejoin and re-strip. -/
def stripFences (responseText : String) : String :=
  if startsWithL responseText.data "```".data then
    let lines := splitOnCharL '\n' responseText.data
    let kept := lines.filter (fun l => !(startsWithL (stripCharsL pyWsChar l) "```".data))
    pyStrip ⟨joinLinesL kept⟩
  else responseText

/-- The transcript object-extraction step of `generate_transcript` (source
lines 558-582): fence stripping, `json.loads`, per-field defaults, and the
degraded `("unknown", raw text)` result on decode failure.  A decode that
succeeds with a non-object raises `AttributeError` at `parsed.get` (and a
non-string `transcript` field raises at `.strip()`); both surface as the
`Except.error` case, which the handler's catch-all turns into an error
response. -/
def extractTranscript (response : String) : Except String (Json × String) :=
  let rt := stripFences (pyStrip response)
  match json_loads rt with
  | .ok (.obj fs) =>
    let language := jgetD (.obj fs) "language" (.str "unknown")
    match jgetD (.obj fs) "transcript" (.str rt) with
    | .str t => .ok (language, pyStrip t)
    | _ => .error "AttributeError: strip"
  | .ok _ => .error "AttributeError: get"
  | .error _ => .ok (.str "unknown", pyStrip rt)

/-! ### The loaded-model structure and session state

Only the parts of the backend model object the server itself touches are
modelled: the two nested attribute paths probed for the per-call
`extended_embedding_queue`, and the parameter sizes read by `model-info`.
The conv-weight layout fixup after a multimodal load mutates weights the
server never reads back, so it has no footprint here. -/

/-- The embedding module: whether it has an `extended_embedding_queue`
attribute, and that queue's contents (abstract entries). -/
structure Embed where
  hasQueue : Bool
  queue : List Int
deriving DecidableEq, Repr

/-- A `.model` submodule that may or may not expose `embed_tokens`. -/
structure ModelInner where
  embed_tokens : Option Embed
deriving DecidableEq, Repr

/-- The loaded model object.  `thinkerModel` is `some` exactly when
`hasattr(model, 'thinker') and hasattr(model.thinker, 'model')` holds
(Qwen-Omni shape); `languageModelModel` likewise for the `language_model`
shape.  `params` holds the parameter sizes summed by `model-info`. -/
structure ModelStruct where
  thinkerModel : Option ModelInner
  languageModelModel : Option ModelInner
  params : List Nat
deriving DecidableEq, Repr

/-- The Session: the four fields of `MLXServer.__init__`. -/
structure ServerState where
  model : Option ModelStruct
  tokenizer : Option Nat
  model_name : Option String
  capabilities : List String
deriving DecidableEq, Repr

/-- The empty Session created at process start. -/
def initState : ServerState := ⟨none, none, none, []⟩

/-- External collaborators: each fallible call returns `Except`, mirroring
"returns normally or raises". -/
structure Env where
  /-- Whether `mlx_lm_omni` imported successfully (`OMNI_AVAILABLE`). -/
  omniAvailable : Bool
  /-- The `mx.array` probe of `check_availability`. -/
  mxCheck : Except String Unit
  /-- `mlx_lm.load`. -/
  textLoad : String → Except String (ModelStruct × Nat)
  /-- `mlx_lm_omni.load`. -/
  omniLoad : String → Except String (ModelStruct × Nat)
  /-- `os.path.exists`. -/
  fileExists : String → Bool
  /-- `librosa.load(path, sr=16000, mono=True)`: decoded samples. -/
  librosaLoad : String → Except String (List Int)
  /-- Raw PCM read and s16le conversion. -/
  readPcm : String → Except String (List Int)
  /-- `tokenizer.apply_chat_template(conversation, add_generation_prompt=True)`. -/
  applyChatTemplate : List Json → Except String (List Nat)
  /-- `apply_chat_template` on a single user message carrying audio. -/
  applyChatTemplateAudio : String → List Int → Except String (List Nat)
  /-- `mlx_lm.generate` on a string prompt (tags, summarize). -/
  generateStr : String → Except String String
  /-- `mlx_lm.generate` on token ids (chat, transcript). -/
  generateTok : List Nat → Except String String
  /-- `mlx_lm_omni.generate` on token ids (copilot-analyze). -/
  omniGenerateTok : List Nat → Except String String
  /-- `huggingface_hub.snapshot_download`. -/
  snapshotDownload : String → String → Except String Unit

/-! ### Handlers -/

/-- Result of one handler: the returned response, the (possibly mutated)
Session, and how many inference-backend `generate` calls were made. -/
structure HOut where
  resp : Json
  st : ServerState
  calls : Nat

/-- An error response `{"type": "error", "command": cmd, "error": err}`. -/
def errResp (cmd err : String) : Json :=
  .obj [("type", .str "error"), ("command", .str cmd), ("error", .str err)]

/-- Python `s.endswith(suffix)`. -/
def pyEndsWith (s suffix : String) : Bool :=
  startsWithL s.data.reverse suffix.data.reverse

/-- Last `/`-separated segment of a path (`model_path.split("/")[-1]`). -/
def lastSegment (p : String) : String :=
  match (splitOnCharL '/' p.data).getLast? with
  | some l => ⟨l⟩
  | none => p

/-- `MLXServer.check_availability`. -/
def check_availability (env : Env) (st : ServerState) : HOut :=
  match env.mxCheck with
  | .ok _ =>
    ⟨.obj [("type", .str "response"), ("command", .str "check-availability"),
           ("available", .bool true)], st, 0⟩
  | .error e =>
    ⟨.obj [("type", .str "response"), ("command", .str "check-availability"),
           ("available", .bool false), ("error", .str e)], st, 0⟩

/-- The successful tail of `load_model`: store handles and display name, reply
with name and capabilities.  (The post-load conv-weight fixup only touches
audio-tower weights the server never reads back, so it has no footprint on the
modelled state.) -/
def loadSuccess (st1 : ServerState) (m : ModelStruct) (tok : Nat) (p : String)
    (caps : List String) : HOut :=
  let name := lastSegment p
  ⟨.obj [("type", .str "response"), ("command", .str "load-model"),
         ("success", .bool true), ("model_name", .str name),
         ("capabilities", .arr (caps.map .str))],
   { st1 with model := some m, tokenizer := some tok, model_name := some name }, 0⟩

/-- `MLXServer.load_model`.  Note the source stores `self.capabilities` first
("so we know which loader to use"): every exit, including the failure exits,
leaves the requested capability list in the Session. -/
def load_model (env : Env) (st : ServerState) (model_path : Json)
    (capabilities : Option (List String)) : HOut :=
  let caps := capabilities.getD ["text"]
  let st1 := { st with capabilities := caps }
  if caps.contains "audio" then
    if !env.omniAvailable then
      ⟨errResp "load-model" "mlx-lm-omni not installed. Install it to load multimodal models.",
       st1, 0⟩
    else
      match model_path with
      | .str p =>
        match env.omniLoad p with
        | .error e => ⟨errResp "load-model" e, st1, 0⟩
        | .ok (m, tok) => loadSuccess st1 m tok p caps
      | _ => ⟨errResp "load-model" "TypeError: model path must be a string", st1, 0⟩
  else
    match model_path with
    | .str p =>
      match env.textLoad p with
      | .error e => ⟨errResp "load-model" e, st1, 0⟩
      | .ok (m, tok) => loadSuccess st1 m tok p caps
    | _ => ⟨errResp "load-model" "TypeError: model path must be a string", st1, 0⟩

/-- Prompt of `generate_tags`. -/
def tagsPrompt (c : String) : String :=
  "Generate 3-5 relevant tags for this content. Return ONLY a JSON array of strings, nothing else.\n\nContent: "
    ++ pyTake 2000 c ++ "\n\nTags:"

/-- `MLXServer.generate_tags`. -/
def generate_tags (env : Env) (st : ServerState) (content : Json) : HOut :=
  if st.model.isNone then ⟨errResp "generate-tags" "No model loaded", st, 0⟩
  else
    match content with
    | .str c =>
      match env.generateStr (tagsPrompt c) with
      | .ok response =>
        ⟨.obj [("type", .str "response"), ("command", .str "generate-tags"),
               ("tags", .arr (((parse_tags response).take 5).map .str))], st, 1⟩
      | .error e => ⟨errResp "generate-tags" e, st, 1⟩
    | _ => ⟨errResp "generate-tags" "TypeError: content is not subscriptable", st, 0⟩

/-- Prompt of `summarize`. -/
def summarizePrompt (c : String) : String :=
  "Summarize this content in 2-3 sentences. Be concise and factual.\n\nContent: "
    ++ pyTake 2000 c ++ "\n\nSummary:"

/-- `MLXServer.summarize`. -/
def summarize (env : Env) (st : ServerState) (content : Json) : HOut :=
  if st.model.isNone then ⟨errResp "summarize" "No model loaded", st, 0⟩
  else
    match content with
    | .str c =>
      match env.generateStr (summarizePrompt c) with
      | .ok response =>
        ⟨.obj [("type", .str "response"), ("command", .str "summarize"),
               ("summary", .str (pyStrip response))], st, 1⟩
      | .error e => ⟨errResp "summarize" e, st, 1⟩
    | _ => ⟨errResp "summarize" "TypeError: content is not subscriptable", st, 0⟩

/-- Python `m["role"]`-style item access: `KeyError`/`TypeError` on failure. -/
def jitem (m : Json) (k : String) : Except String Json :=
  match m with
  | .obj fs =>
    match jgetList fs k with
    | some v => .ok v
    | none => .error ("KeyError: " ++ pyReprStr k)
  | _ => .error "TypeError: message is not a dict"

/-- The conversation list built by `chat` from its `messages` argument. -/
def buildConversation : List Json → Except String (List Json)
  | [] => .ok []
  | m :: ms => do
    let r ← jitem m "role"
    let c ← jitem m "content"
    let rest ← buildConversation ms
    .ok (.obj [("role", r), ("content", c)] :: rest)

/-- `MLXServer.chat`. -/
def chat (env : Env) (st : ServerState) (messages : Json) : HOut :=
  if st.model.isNone then ⟨errResp "chat" "No model loaded", st, 0⟩
  else if !(jtruthy messages) then ⟨errResp "chat" "No messages provided", st, 0⟩
  else
    match messages with
    | .arr ms =>
      match buildConversation ms with
      | .error e => ⟨errResp "chat" e, st, 0⟩
      | .ok conv =>
        match env.applyChatTemplate conv with
        | .error e => ⟨errResp "chat" e, st, 0⟩
        | .ok toks =>
          match env.generateTok toks with
          | .ok t =>
            ⟨.obj [("type", .str "response"), ("command", .str "chat"),
                   ("response", .str (pyStrip t))], st, 1⟩
          | .error e => ⟨errResp "chat" e, st, 1⟩
    | _ => ⟨errResp "chat" "TypeError: messages is not iterable", st, 0⟩

/-- Queue clearing in `generate_transcript` (source lines 527-535): probe the
`thinker.model` shape first, else the `language_model.model` shape, using
`getattr(…, 'embed_tokens', None)`; clear only when the embedding exposes the
queue.  (A present embedding module is truthy.) -/
def transcriptClear (m : ModelStruct) : ModelStruct :=
  match m.thinkerModel with
  | some inner =>
    match inner.embed_tokens with
    | some e =>
      if e.hasQueue then
        { m with thinkerModel := some ⟨some ⟨e.hasQueue, []⟩⟩ }
      else m
    | none => m
  | none =>
    match m.languageModelModel with
    | some inner =>
      match inner.embed_tokens with
      | some e =>
        if e.hasQueue then
          { m with languageModelModel := some ⟨some ⟨e.hasQueue, []⟩⟩ }
        else m
      | none => m
    | none => m

/-- Queue clearing in `copilot_analyze` (source lines 662-666): probes only
the `language_model.model` shape, and accesses `embed_tokens` directly, so a
`language_model.model` lacking that attribute raises `AttributeError`. -/
def copilotClear (m : ModelStruct) : Except String ModelStruct :=
  match m.languageModelModel with
  | some inner =>
    match inner.embed_tokens with
    | none => .error "AttributeError: embed_tokens"
    | some e =>
      .ok (if e.hasQueue then
             { m with languageModelModel := some ⟨some ⟨e.hasQueue, []⟩⟩ }
           else m)
  | none => .ok m

/-- Prompt of `generate_transcript`. -/
def transcriptPrompt : String :=
  "Detect the language spoken. Transcribe word for word in the detected language. Do NOT translate. Respond in JSON: \x7b\"language\": \"...\", \"transcript\": \"...\"\x7d"

/-- `MLXServer.generate_transcript`. -/
def generate_transcript (env : Env) (st : ServerState) (audio_path : Json) : HOut :=
  match st.model with
  | none => ⟨errResp "generate-transcript" "No model loaded", st, 0⟩
  | some m =>
    if !(st.capabilities.contains "audio") then
      ⟨errResp "generate-transcript" "Loaded model does not support audio transcription", st, 0⟩
    else if !env.omniAvailable then
      ⟨errResp "generate-transcript" "mlx-lm-omni not installed. Install it to enable audio transcription.",
       st, 0⟩
    else
      match audio_path with
      | .str p =>
        if !(env.fileExists p) then
          ⟨errResp "generate-transcript" ("Audio file not found: " ++ p), st, 0⟩
        else
          let audioRes :=
            if pyEndsWith p ".wav" then some (env.librosaLoad p)
            else if pyEndsWith p ".pcm" then some (env.readPcm p)
            else none
          match audioRes with
          | none =>
            ⟨errResp "generate-transcript" ("Unsupported audio format: " ++ p), st, 0⟩
          | some (.error e) =>
            ⟨errResp "generate-transcript" ("Transcription failed: " ++ e), st, 0⟩
          | some (.ok audio) =>
            if audio.isEmpty then
              ⟨.obj [("type", .str "response"), ("command", .str "generate-transcript"),
                     ("language", .str "unknown"), ("transcript", .str "")], st, 0⟩
            else
              let m' := transcriptClear m
              let st' := { st with model := some m' }
              match env.applyChatTemplateAudio transcriptPrompt audio with
              | .error e =>
                ⟨errResp "generate-transcript" ("Transcription failed: " ++ e), st', 0⟩
              | .ok toks =>
                match env.generateTok toks with
                | .error e =>
                  ⟨errResp "generate-transcript" ("Transcription failed: " ++ e), st', 1⟩
                | .ok response =>
                  match extractTranscript response with
                  | .ok (language, t) =>
                    ⟨.obj [("type", .str "response"), ("command", .str "generate-transcript"),
                           ("language", language), ("transcript", .str t)], st', 1⟩
                  | .error e =>
                    ⟨errResp "generate-transcript" ("Transcription failed: " ++ e), st', 1⟩
      | _ => ⟨errResp "generate-transcript" "Transcription failed: TypeError: path", st, 0⟩

/-- The JSON field template shared by both copilot prompts. -/
def copilotJsonTemplate : String :=
  "\x7b\"new_content\": \"...\", \"updated_summary\": \"...\", \"key_points\": [...], \"decisions\": [...], \"action_items\": [...], \"open_questions\": [...], \"suggested_questions\": [\x7b\"question\": \"...\", \"reason\": \"...\"\x7d], \"key_concepts\": [\x7b\"term\": \"...\", \"context\": \"...\"\x7d]\x7d"

/-- First-cycle copilot prompt (empty context). -/
def copilotInitialPrompt : String :=
  "This is the start of a conversation. Analyze the audio and provide:\n1. What was discussed\n2. Summary of the conversation\n3. Key points mentioned\n4. Any decisions made\n5. Action items identified\n6. Open questions raised\n7. Suggested questions to ask next (with reasons)\n8. Key concepts (technical terms, names, topics) with brief context\n\nRespond in JSON format with these exact fields:\n"
    ++ copilotJsonTemplate

/-- Continuation copilot prompt embedding the prior summary verbatim. -/
def copilotContinuationPrompt (ctx : String) : String :=
  "Previous conversation summary:\n" ++ ctx
    ++ "\n\nAnalyze the new audio segment and provide:\n1. What new content was discussed\n2. Updated summary of the entire conversation so far\n3. Key points mentioned\n4. Any decisions made\n5. Action items identified\n6. Open questions raised\n7. Suggested questions to ask next (with reasons)\n8. Key concepts (technical terms, names, topics) with brief context\n\nRespond in JSON format with these exact fields:\n"
    ++ copilotJsonTemplate

/-- The empty-audio pass-through response of `copilot_analyze`. -/
def copilotEmptyResp (context : Json) : Json :=
  .obj [("type", .str "response"), ("command", .str "copilot-analyze"),
        ("new_content", .str ""), ("updated_summary", context),
        ("key_points", .arr []), ("decisions", .arr []),
        ("action_items", .arr []), ("open_questions", .arr []),
        ("suggested_questions", .arr []), ("key_concepts", .arr [])]

/-- The defaulted-field response built from a decoded copilot object. -/
def copilotParsedResp (parsed : Json) : Json :=
  .obj [("type", .str "response"), ("command", .str "copilot-analyze"),
        ("new_content", jgetD parsed "new_content" (.str "")),
        ("updated_summary", jgetD parsed "updated_summary" (.str "")),
        ("key_points", jgetD parsed "key_points" (.arr [])),
        ("decisions", jgetD parsed "decisions" (.arr [])),
        ("action_items", jgetD parsed "action_items" (.arr [])),
        ("open_questions", jgetD parsed "open_questions" (.arr [])),
        ("suggested_questions", jgetD parsed "suggested_questions" (.arr [])),
        ("key_concepts", jgetD parsed "key_concepts" (.arr []))]

/-- The decode-failure fallback response of `copilot_analyze`. -/
def copilotFallbackResp (rt : String) : Json :=
  .obj [("type", .str "response"), ("command", .str "copilot-analyze"),
        ("new_content", .str rt), ("updated_summary", .str rt),
        ("key_points", .arr []), ("decisions", .arr []),
        ("action_items", .arr []), ("open_questions", .arr []),
        ("suggested_questions", .arr []), ("key_concepts", .arr [])]

/-- `MLXServer.copilot_analyze`. -/
def copilot_analyze (env : Env) (st : ServerState) (audio_path context : Json) : HOut :=
  match st.model with
  | none => ⟨errResp "copilot-analyze" "No model loaded", st, 0⟩
  | some m =>
    if !(st.capabilities.contains "audio") then
      ⟨errResp "copilot-analyze" "Model does not support audio analysis", st, 0⟩
    else if !env.omniAvailable then
      ⟨errResp "copilot-analyze" "mlx-lm-omni not installed. Install it to enable Co-Pilot analysis.",
       st, 0⟩
    else
      match audio_path with
      | .str p =>
        if !(env.fileExists p) then
          ⟨errResp "copilot-analyze" ("Audio file not found: " ++ p), st, 0⟩
        else
          match env.librosaLoad p with
          | .error e =>
            ⟨errResp "copilot-analyze" ("Co-Pilot analysis failed: " ++ e), st, 0⟩
          | .ok audio =>
            if audio.isEmpty then ⟨copilotEmptyResp context, st, 0⟩
            else
              match copilotClear m with
              | .error e =>
                ⟨errResp "copilot-analyze" ("Co-Pilot analysis failed: " ++ e), st, 0⟩
              | .ok m' =>
                let st' := { st with model := some m' }
                let prompt :=
                  if jtruthy context then copilotContinuationPrompt (pyStr context)
                  else copilotInitialPrompt
                match env.applyChatTemplateAudio prompt audio with
                | .error e =>
                  ⟨errResp "copilot-analyze" ("Co-Pilot analysis failed: " ++ e), st', 0⟩
                | .ok toks =>
                  match env.omniGenerateTok toks with
                  | .error e =>
                    ⟨errResp "copilot-analyze" ("Co-Pilot analysis failed: " ++ e), st', 1⟩
                  | .ok response =>
                    let rt := stripFences (pyStrip response)
                    match json_loads rt with
                    | .ok (.obj fs) => ⟨copilotParsedResp (.obj fs), st', 1⟩
                    | .ok _ =>
                      ⟨errResp "copilot-analyze"
                        "Co-Pilot analysis failed: AttributeError: get", st', 1⟩
                    | .error _ => ⟨copilotFallbackResp rt, st', 1⟩
      | _ => ⟨errResp "copilot-analyze" "Co-Pilot analysis failed: TypeError: path", st, 0⟩

/-- `MLXServer.model_info`. -/
def model_info (st : ServerState) : HOut :=
  match st.model with
  | none => ⟨errResp "model-info" "No model loaded", st, 0⟩
  | some m =>
    ⟨.obj [("type", .str "response"), ("command", .str "model-info"),
           ("model_name",
            match st.model_name with
            | some n => .str n
            | none => .null),
           ("param_count", .num (Int.ofNat m.params.sum))], st, 0⟩

/-- `MLXServer.download_model`: emits its own lines and returns `None`.  (The
source defines a progress callback but never passes it to
`snapshot_download`, so no progress lines are ever produced.) -/
def download_model (env : Env) (repo dest : Json) : List Json :=
  match repo, dest with
  | .str r, .str d =>
    match env.snapshotDownload r d with
    | .ok _ =>
      [.obj [("type", .str "response"), ("command", .str "download-model"),
             ("success", .bool true), ("destination", .str d)]]
    | .error e =>
      [.obj [("type", .str "error"), ("command", .str "download-model"),
             ("error", .str e)]]
  | _, _ =>
    [.obj [("type", .str "error"), ("command", .str "download-model"),
           ("error", .str "TypeError: repo or destination")]]

/-! ### The dispatcher and read loop -/

/-- Result of `handle_command` at the loop boundary: the lines this command
caused to be emitted (in order; the returned response, when any, plus any
self-emitted lines), the Session after, and the backend call count. -/
structure COut where
  out : List Json
  st : ServerState
  calls : Nat

/-- Lift a single-response handler result. -/
def ofH (h : HOut) : COut := ⟨[h.resp], h.st, h.calls⟩

/-- Conversion of the `capabilities` field to the loader argument.  Absent key
and JSON `null` both reach `load_model` as Python `None`; the host protocol
supplies an array of strings, the only shape any claim exercises (non-string
entries can never equal `"audio"` and are dropped; a non-array value is
outside the modelled fragment and treated as absent). -/
def toCaps : Option Json → Option (List String)
  | none => none
  | some .null => none
  | some (.arr xs) =>
    some (xs.filterMap fun j => match j with | .str s => some s | _ => none)
  | some _ => none

/-- The shutdown acknowledgment. -/
def shutdownAck : Json :=
  .obj [("type", .str "response"), ("command", .str "shutdown"), ("success", .bool true)]

/-- The `{"type": "error", "error": "Unknown command: …"}` response (the only
error response without a `command` echo). -/
def unknownResp (name : String) : Json :=
  .obj [("type", .str "error"), ("error", .str ("Unknown command: " ++ name))]

/-- The body of `MLXServer.handle_command` once the command name is a string. -/
def dispatchNamed (env : Env) (st : ServerState) (d : Json) (c : String) : COut :=
  if c = "check-availability" then ofH (check_availability env st)
  else if c = "load-model" then
    let mp := jget d "model_path"
    if !(jtruthyOpt mp) then ofH ⟨errResp c "Missing model_path", st, 0⟩
    else ofH (load_model env st (mp.getD .null) (toCaps (jget d "capabilities")))
  else if c = "generate-tags" then
    let content := jget d "content"
    if !(jtruthyOpt content) then ofH ⟨errResp c "Missing content", st, 0⟩
    else ofH (generate_tags env st (content.getD .null))
  else if c = "summarize" then
    let content := jget d "content"
    if !(jtruthyOpt content) then ofH ⟨errResp c "Missing content", st, 0⟩
    else ofH (summarize env st (content.getD .null))
  else if c = "chat" then
    let messages := jget d "messages"
    if !(jtruthyOpt messages) then ofH ⟨errResp c "Missing messages", st, 0⟩
    else ofH (chat env st (messages.getD .null))
  else if c = "generate-transcript" then
    let ap := jget d "audio_path"
    if !(jtruthyOpt ap) then ofH ⟨errResp c "Missing audio_path", st, 0⟩
    else ofH (generate_transcript env st (ap.getD .null))
  else if c = "copilot-analyze" then
    let ap := jget d "audio_path"
    let context := jgetD d "context" (.str "")
    if !(jtruthyOpt ap) then ofH ⟨errResp c "Missing audio_path", st, 0⟩
    else ofH (copilot_analyze env st (ap.getD .null) context)
  else if c = "download-model" then
    let r := jget d "repo_id"
    let de := jget d "destination"
    if !(jtruthyOpt r) || !(jtruthyOpt de) then
      ofH ⟨errResp c "Missing repo_id or destination", st, 0⟩
    else ⟨download_model env (r.getD .null) (de.getD .null), st, 0⟩
  else if c = "model-info" then ofH (model_info st)
  else if c = "shutdown" then ofH ⟨shutdownAck, st, 0⟩
  else ⟨[unknownResp c], st, 0⟩

/-- `MLXServer.handle_command`: route on `command_data.get("command")`. -/
def handle_command (env : Env) (st : ServerState) (d : Json) : COut :=
  match jget d "command" with
  | some (.str c) => dispatchNamed env st d c
  | some v => ⟨[unknownResp (pyStr v)], st, 0⟩
  | none => ⟨[unknownResp "None"], st, 0⟩

/-- Whether the loop's post-dispatch check `command_data.get("command") ==
"shutdown"` fires for this decoded line. -/
def isShutdownCmd (d : Json) : Bool :=
  match jget d "command" with
  | some (.str c) => c = "shutdown"
  | _ => false

/-- Result of the read loop on a finite input stream: the emitted lines, the
final Session, and whether the loop exited via the shutdown `break` (rather
than end-of-input). -/
structure RunOut where
  out : List Json
  st : ServerState
  shutdown : Bool

/-- The invalid-JSON error line of the read loop. -/
def invalidJsonResp (e : String) : Json :=
  .obj [("type", .str "error"), ("error", .str ("Invalid JSON: " ++ e))]

/-- The catch-all error line of the read loop (a decoded non-dict makes
`command_data.get` raise `AttributeError`; the traceback text is abstracted). -/
def unexpectedResp : Json :=
  .obj [("type", .str "error"), ("error", .str "Unexpected error: AttributeError"),
        ("traceback", .str "Traceback (most recent call last): AttributeError")]

/-- `MLXServer.run`: strip each line, skip blanks, decode, dispatch, emit, and
break after a shutdown command. -/
def runLoop (env : Env) : ServerState → List String → RunOut
  | st, [] => ⟨[], st, false⟩
  | st, line :: rest =>
    let l := pyStrip line
    if l = "" then runLoop env st rest
    else
      match json_loads l with
      | .error e =>
        let r := runLoop env st rest
        ⟨invalidJsonResp e :: r.out, r.st, r.shutdown⟩
      | .ok d =>
        match d with
        | .obj fs =>
          let h := handle_command env st (.obj fs)
          if isShutdownCmd (.obj fs) then ⟨h.out, h.st, true⟩
          else
            let r := runLoop env h.st rest
            ⟨h.out ++ r.out, r.st, r.shutdown⟩
        | _ =>
          let r := runLoop env st rest
          ⟨unexpectedResp :: r.out, r.st, r.shutdown⟩

/-! ### Concrete environments and states for witnesses and counterexamples -/

/-- An environment where the multimodal backend is unavailable and loads fail. -/
def envNoOmni : Env where
  omniAvailable := false
  mxCheck := .ok ()
  textLoad := fun _ => .error "model weights missing"
  omniLoad := fun _ => .error "mlx_lm_omni not importable"
  fileExists := fun _ => false
  librosaLoad := fun _ => .error "librosa failed"
  readPcm := fun _ => .error "pcm read failed"
  applyChatTemplate := fun _ => .error "template failed"
  applyChatTemplateAudio := fun _ _ => .error "template failed"
  generateStr := fun _ => .error "generate failed"
  generateTok := fun _ => .error "generate failed"
  omniGenerateTok := fun _ => .error "generate failed"
  snapshotDownload := fun _ _ => .error "download failed"

/-- An environment with a working multimodal backend whose decoder returns a
two-sample segment and whose generator answers with a small JSON object. -/
def envAudio : Env where
  omniAvailable := true
  mxCheck := .ok ()
  textLoad := fun _ => .ok (⟨none, none, [2]⟩, 1)
  omniLoad := fun _ => .ok (⟨some ⟨some ⟨true, []⟩⟩, none, [3]⟩, 2)
  fileExists := fun _ => true
  librosaLoad := fun _ => .ok [1, 2]
  readPcm := fun _ => .ok [1, 2]
  applyChatTemplate := fun _ => .ok [1]
  applyChatTemplateAudio := fun _ _ => .ok [1]
  generateStr := fun _ => .ok "[\"a\"]"
  generateTok := fun _ => .ok "\x7b\"language\": \"en\", \"transcript\": \"hi\"\x7d"
  omniGenerateTok := fun _ => .ok "\x7b\"updated_summary\": \"s\"\x7d"
  snapshotDownload := fun _ _ => .ok ()

/-- As `envAudio`, but the decoded audio segment has zero samples. -/
def envEmptyAudio : Env := { envAudio with librosaLoad := fun _ => .ok [] }

/-- A text-only loaded model with no queue-bearing submodule. -/
def mPlain : ModelStruct := ⟨none, none, [4]⟩

/-- A Qwen-Omni-shaped model: the queue lives at `thinker.model.embed_tokens`
and currently holds one stale entry. -/
def mThinkerQ : ModelStruct := ⟨some ⟨some ⟨true, [7]⟩⟩, none, [5]⟩

/-- `mThinkerQ` with its queue cleared. -/
def mThinkerCleared : ModelStruct := ⟨some ⟨some ⟨true, []⟩⟩, none, [5]⟩

/-- A Session with a text-only model resident. -/
def stLoadedText : ServerState := ⟨some mPlain, some 1, some "m", ["text"]⟩

/-- A Session with a thinker-shaped audio model resident. -/
def stAudioThinker : ServerState := ⟨some mThinkerQ, some 1, some "omni", ["audio", "text"]⟩

/-- Whether a response object is an error response (`type` field `"error"`). -/
def isErrorResp (j : Json) : Bool :=
  match jget j "type" with
  | some (.str t) => t = "error"
  | _ => false

/-- The input line used for C2's counterexample: a load of a path the loader
rejects. -/
def loadCmdLine : String := "\x7b\"command\": \"load-model\", \"model_path\": \"/models/x\"\x7d"

/-- The handle-alignment invariant: model, tokenizer and name are absent
together. -/
def handlesAligned (st : ServerState) : Prop :=
  (st.model = none ↔ st.tokenizer = none) ∧ (st.model = none ↔ st.model_name = none)

/-- Whether a decoded value is an object. -/
def isObj : Json → Bool
  | .obj _ => true
  | _ => false

/-- A line whose processing triggers the loop's shutdown break: non-blank,
decodes to an object, and its `command` field equals `"shutdown"`. -/
def isShutdownLine (line : String) : Bool :=
  !(pyStrip line == "") &&
  (match json_loads (pyStrip line) with
   | .ok (.obj fs) => isShutdownCmd (.obj fs)
   | _ => false)

/-! ### Claim theorems -/

/-- C6: the tag list-extraction function takes the first non-greedy bracketed
span and parses it as a JSON array, with the bracket-strip/split fallback:
`'Sure! ["a", "b", "c"]'` maps to `["a","b","c"]`, `'a, b, c'` maps to
`["a","b","c"]` via the fallback, and `'[]'` maps to `[]`.  (It never raises:
`parse_tags` is a total function of the input string by construction.) -/
theorem claim_C6_parse_tags :
    parse_tags "Sure! [\"a\", \"b\", \"c\"]" = ["a", "b", "c"]
    ∧ parse_tags "a, b, c" = ["a", "b", "c"]
    ∧ parse_tags "[]" = [] :=
  ⟨rfl, rfl, rfl⟩

/-- C7: the transcript object-extraction step strips fence lines and parses
the remainder with per-field defaults, and a JSON decode failure yields the
degraded `("unknown", raw text)` result rather than an exception: the fenced
example yields language `"en"` and transcript `"hi"`, the unparseable example
yields `"unknown"` with the text preserved, and in general every decode
failure yields the degraded result. -/
theorem claim_C7_extract_transcript :
    extractTranscript "```json\n\x7b\"language\":\"en\",\"transcript\":\"hi\"\x7d\n```"
      = .ok (.str "en", "hi")
    ∧ extractTranscript "not json at all" = .ok (.str "unknown", "not json at all")
    ∧ ∀ s e, json_loads (stripFences (pyStrip s)) = .error e →
        extractTranscript s = .ok (.str "unknown", pyStrip (stripFences (pyStrip s))) := by
  refine ⟨rfl, rfl, fun s e h => ?_⟩
  simp only [extractTranscript]
  rw [h]

/-- Witness for C7's decode-failure clause at a concrete input. -/
theorem claim_C7_witness :
    json_loads (stripFences (pyStrip "???")) = .error "Expecting value"
    ∧ extractTranscript "???" = .ok (.str "unknown", "???") :=
  ⟨rfl, claim_C7_extract_transcript.2.2 "???" "Expecting value" rfl⟩

/-- C10: the dispatcher's required-field validation treats present-but-empty
values exactly like absent ones: `generate-tags`/`summarize` with
`content = ""` and `chat` with `messages = []` get the same `Missing …` error
as the absent-field case, with no handler run, no Session change and no
backend call. -/
theorem claim_C10_empty_fields (env : Env) (st : ServerState) :
    handle_command env st (.obj [("command", .str "generate-tags"), ("content", .str "")])
      = ⟨[errResp "generate-tags" "Missing content"], st, 0⟩
    ∧ handle_command env st (.obj [("command", .str "generate-tags")])
      = ⟨[errResp "generate-tags" "Missing content"], st, 0⟩
    ∧ handle_command env st (.obj [("command", .str "summarize"), ("content", .str "")])
      = ⟨[errResp "summarize" "Missing content"], st, 0⟩
    ∧ handle_command env st (.obj [("command", .str "summarize")])
      = ⟨[errResp "summarize" "Missing content"], st, 0⟩
    ∧ handle_command env st (.obj [("command", .str "chat"), ("messages", .arr [])])
      = ⟨[errResp "chat" "Missing messages"], st, 0⟩
    ∧ handle_command env st (.obj [("command", .str "chat")])
      = ⟨[errResp "chat" "Missing messages"], st, 0⟩ :=
  ⟨rfl, rfl, rfl, rfl, rfl, rfl⟩

/-- C4: a copilot-analyze call whose decoded segment has zero samples makes no
inference-backend call and returns the pass-through success response: the
`updated_summary` is the input context unchanged and every list field is
empty. -/
theorem claim_C4_empty_audio (env : Env) (st : ServerState) (m : ModelStruct)
    (p : String) (ctx : Json)
    (hm : st.model = some m) (hc : st.capabilities.contains "audio" = true)
    (ho : env.omniAvailable = true) (hf : env.fileExists p = true)
    (ha : env.librosaLoad p = .ok []) :
    copilot_analyze env st (.str p) ctx = ⟨copilotEmptyResp ctx, st, 0⟩ := by
  have hc' : "audio" ∈ st.capabilities := by simpa using hc
  simp [copilot_analyze, hm, hc', ho, hf, ha]

/-- Witness for C4 at a concrete environment, Session and context. -/
theorem claim_C4_witness :
    stAudioThinker.model = some mThinkerQ
    ∧ stAudioThinker.capabilities.contains "audio" = true
    ∧ envEmptyAudio.omniAvailable = true
    ∧ envEmptyAudio.fileExists "a.wav" = true
    ∧ envEmptyAudio.librosaLoad "a.wav" = .ok []
    ∧ copilot_analyze envEmptyAudio stAudioThinker (.str "a.wav") (.str "X")
        = ⟨copilotEmptyResp (.str "X"), stAudioThinker, 0⟩ :=
  ⟨rfl, rfl, rfl, rfl, rfl,
    claim_C4_empty_audio envEmptyAudio stAudioThinker mThinkerQ "a.wav" (.str "X")
      rfl rfl rfl rfl rfl⟩

/-- C5 (code bug): on a Qwen-Omni-shaped model — the queue lives at
`thinker.model.embed_tokens`, as `generate_transcript`'s own clearing comment
documents — `copilot_analyze` reaches inference (one backend call) with the
stale queue entry still present, because its clearing step probes only the
`language_model.model` shape; `generate_transcript` on the same Session does
clear it. -/
theorem claim_C5_queue_not_cleared :
    (copilot_analyze envAudio stAudioThinker (.str "a.wav") (.str "")).calls = 1
    ∧ (copilot_analyze envAudio stAudioThinker (.str "a.wav") (.str "")).st.model
        = some mThinkerQ
    ∧ mThinkerQ.thinkerModel = some ⟨some ⟨true, [7]⟩⟩
    ∧ (generate_transcript envAudio stAudioThinker (.str "a.wav")).st.model
        = some mThinkerCleared
    ∧ mThinkerCleared.thinkerModel = some ⟨some ⟨true, []⟩⟩ :=
  ⟨rfl, rfl, rfl, rfl, rfl⟩

/-- A successful load never produces an error response. -/
lemma loadSuccess_not_error (st1 : ServerState) (m : ModelStruct) (tok : Nat)
    (p : String) (caps : List String) :
    isErrorResp (loadSuccess st1 m tok p caps).resp = false := rfl

/-- C1 (counterexample): a failed load does change the Session.  With the
multimodal backend unavailable, loading with capability `["audio"]` over a
resident text model returns an error but overwrites the Session's
capabilities. -/
theorem claim_C1_counterexample :
    isErrorResp (load_model envNoOmni stLoadedText (.str "p") (some ["audio"])).resp = true
    ∧ (load_model envNoOmni stLoadedText (.str "p") (some ["audio"])).st ≠ stLoadedText :=
  ⟨rfl, by decide⟩

/-- C1 (amended): on every failed load the model handle, tokenizer handle and
model name are unchanged and an error response is returned, but the
capabilities field has already been overwritten with the requested capability
list (defaulting to `["text"]`); no backend generate call is made. -/
theorem claim_C1_amended (env : Env) (st : ServerState) (mp : Json)
    (caps : Option (List String))
    (h : isErrorResp (load_model env st mp caps).resp = true) :
    (load_model env st mp caps).st.model = st.model
    ∧ (load_model env st mp caps).st.tokenizer = st.tokenizer
    ∧ (load_model env st mp caps).st.model_name = st.model_name
    ∧ (load_model env st mp caps).st.capabilities = caps.getD ["text"]
    ∧ (load_model env st mp caps).calls = 0 := by
  simp only [load_model] at h ⊢
  by_cases hca : (caps.getD ["text"]).contains "audio" = true
  · rw [if_pos hca] at h ⊢
    by_cases hom : (!env.omniAvailable) = true
    · rw [if_pos hom] at h ⊢
      exact ⟨rfl, rfl, rfl, rfl, rfl⟩
    · rw [if_neg hom] at h ⊢
      cases mp <;> try exact ⟨rfl, rfl, rfl, rfl, rfl⟩
      rename_i p
      cases hl : env.omniLoad p with
      | error e =>
        simp only [hl] at h ⊢
        simp
      | ok v =>
        obtain ⟨m, tok⟩ := v
        simp only [hl] at h
        rw [loadSuccess_not_error] at h
        exact absurd h (by simp)
  · rw [if_neg hca] at h ⊢
    cases mp <;> try exact ⟨rfl, rfl, rfl, rfl, rfl⟩
    rename_i p
    cases hl : env.textLoad p with
    | error e =>
      simp only [hl] at h ⊢
      simp
    | ok v =>
      obtain ⟨m, tok⟩ := v
      simp only [hl] at h
      rw [loadSuccess_not_error] at h
      exact absurd h (by simp)

/-- Witness for C1's amended theorem at the counterexample input. -/
theorem claim_C1_amended_witness :
    isErrorResp (load_model envNoOmni stLoadedText (.str "p") (some ["audio"])).resp = true
    ∧ ((load_model envNoOmni stLoadedText (.str "p") (some ["audio"])).st.model
        = stLoadedText.model
      ∧ (load_model envNoOmni stLoadedText (.str "p") (some ["audio"])).st.tokenizer
          = stLoadedText.tokenizer
      ∧ (load_model envNoOmni stLoadedText (.str "p") (some ["audio"])).st.model_name
          = stLoadedText.model_name
      ∧ (load_model envNoOmni stLoadedText (.str "p") (some ["audio"])).st.capabilities
          = (some ["audio"]).getD ["text"]
      ∧ (load_model envNoOmni stLoadedText (.str "p") (some ["audio"])).calls = 0) :=
  ⟨rfl, claim_C1_amended envNoOmni stLoadedText (.str "p") (some ["audio"]) rfl⟩

/-- C2 (counterexample): the capabilities-empty ⇔ unloaded half of the
invariant fails on a reachable state: after one failed `load-model` command
the Session has no model but a non-empty capabilities list. -/
theorem claim_C2_counterexample :
    (runLoop envNoOmni initState [loadCmdLine]).st.model = none
    ∧ (runLoop envNoOmni initState [loadCmdLine]).st.tokenizer = none
    ∧ (runLoop envNoOmni initState [loadCmdLine]).st.capabilities ≠ [] :=
  ⟨rfl, rfl, by decide⟩

lemma handlesAligned_init : handlesAligned initState := by
  constructor <;> simp [initState]

lemma handlesAligned_setModel {st : ServerState} {m : ModelStruct}
    (h : handlesAligned st) (hm : st.model = some m) (m' : ModelStruct) :
    handlesAligned { st with model := some m' } := by
  obtain ⟨h1, h2⟩ := h
  rw [hm] at h1 h2
  constructor <;> constructor <;> intro hx <;> simp_all

lemma loadSuccess_aligned (st1 : ServerState) (m : ModelStruct) (tok : Nat)
    (p : String) (caps : List String) :
    handlesAligned (loadSuccess st1 m tok p caps).st := by
  constructor <;> simp [loadSuccess]

lemma load_model_aligned (env : Env) (st : ServerState) (mp : Json)
    (caps : Option (List String)) (h : handlesAligned st) :
    handlesAligned (load_model env st mp caps).st := by
  simp only [load_model]
  repeat' split
  all_goals first
    | exact h
    | exact loadSuccess_aligned _ _ _ _ _

lemma check_availability_st (env : Env) (st : ServerState) :
    (check_availability env st).st = st := by
  unfold check_availability
  split <;> rfl

lemma generate_tags_st (env : Env) (st : ServerState) (c : Json) :
    (generate_tags env st c).st = st := by
  unfold generate_tags
  repeat' split
  all_goals rfl

lemma summarize_st (env : Env) (st : ServerState) (c : Json) :
    (summarize env st c).st = st := by
  unfold summarize
  repeat' split
  all_goals rfl

lemma chat_st (env : Env) (st : ServerState) (ms : Json) :
    (chat env st ms).st = st := by
  unfold chat
  repeat' split
  all_goals rfl

lemma model_info_st (st : ServerState) : (model_info st).st = st := by
  unfold model_info
  split <;> rfl

set_option maxHeartbeats 1000000 in
lemma generate_transcript_aligned (env : Env) (st : ServerState) (a : Json)
    (h : handlesAligned st) :
    handlesAligned (generate_transcript env st a).st := by
  cases hm : st.model with
  | none =>
    simp only [generate_transcript, hm]
    exact h
  | some m =>
    simp only [generate_transcript, hm]
    repeat' split
    all_goals first
      | exact h
      | exact handlesAligned_setModel h hm _

set_option maxHeartbeats 1000000 in
lemma copilot_analyze_aligned (env : Env) (st : ServerState) (a ctx : Json)
    (h : handlesAligned st) :
    handlesAligned (copilot_analyze env st a ctx).st := by
  cases hm : st.model with
  | none =>
    simp only [copilot_analyze, hm]
    exact h
  | some m =>
    simp only [copilot_analyze, hm]
    repeat' split
    all_goals first
      | exact h
      | exact handlesAligned_setModel h hm _

lemma st_eq_aligned {st st' : ServerState} (he : st' = st)
    (h : handlesAligned st) : handlesAligned st' := he ▸ h

set_option maxHeartbeats 2000000 in
lemma handle_command_aligned (env : Env) (st : ServerState) (d : Json)
    (h : handlesAligned st) :
    handlesAligned (handle_command env st d).st := by
  unfold handle_command
  split
  case _ c =>
    simp only [dispatchNamed, ofH]
    repeat' split
    all_goals first
      | exact h
      | exact st_eq_aligned (check_availability_st env st) h
      | exact load_model_aligned env st _ _ h
      | exact st_eq_aligned (generate_tags_st env st _) h
      | exact st_eq_aligned (summarize_st env st _) h
      | exact st_eq_aligned (chat_st env st _) h
      | exact generate_transcript_aligned env st _ h
      | exact copilot_analyze_aligned env st _ _ h
      | exact st_eq_aligned (model_info_st st) h
  all_goals exact h

lemma runLoop_aligned (env : Env) :
    ∀ (lines : List String) (st : ServerState), handlesAligned st →
      handlesAligned (runLoop env st lines).st := by
  intro lines
  induction lines with
  | nil => intro st h; exact h
  | cons line rest ih =>
    intro st h
    simp only [runLoop]
    split
    · exact ih st h
    · split
      · exact ih st h
      · split
        · split
          · exact handle_command_aligned env st _ h
          · exact ih _ (handle_command_aligned env st _ h)
        · exact ih st h

/-- C2 (amended): in every state reachable from the empty Session the model,
tokenizer and model-name handles are absent together; the capabilities half
of the claimed invariant does not hold (see the counterexample: a failed load
leaves a non-empty capabilities list with no model loaded). -/
theorem claim_C2_amended (env : Env) (lines : List String) :
    handlesAligned (runLoop env initState lines).st :=
  runLoop_aligned env lines initState handlesAligned_init

/-- C3: every model-dependent command (generate-tags, summarize, chat,
generate-transcript, copilot-analyze, model-info) dispatched while no model is
loaded returns the `No model loaded` error with the Session unchanged and zero
backend calls, and both audio commands dispatched on a loaded model without
the `"audio"` capability return the respective missing-audio-capability error,
again with zero backend calls.  (The commands carry their required fields:
empty required fields short-circuit earlier to the `Missing …` error, see the
C10 theorem.) -/
theorem claim_C3_gating (env : Env) :
    (∀ st : ServerState, st.model = none →
      (∀ c : String, c ≠ "" →
        handle_command env st (.obj [("command", .str "generate-tags"), ("content", .str c)])
          = ⟨[errResp "generate-tags" "No model loaded"], st, 0⟩
        ∧ handle_command env st (.obj [("command", .str "summarize"), ("content", .str c)])
          = ⟨[errResp "summarize" "No model loaded"], st, 0⟩)
      ∧ (∀ ms : List Json, ms ≠ [] →
          handle_command env st (.obj [("command", .str "chat"), ("messages", .arr ms)])
            = ⟨[errResp "chat" "No model loaded"], st, 0⟩)
      ∧ (∀ p : String, p ≠ "" →
          handle_command env st
              (.obj [("command", .str "generate-transcript"), ("audio_path", .str p)])
            = ⟨[errResp "generate-transcript" "No model loaded"], st, 0⟩
          ∧ handle_command env st
              (.obj [("command", .str "copilot-analyze"), ("audio_path", .str p)])
            = ⟨[errResp "copilot-analyze" "No model loaded"], st, 0⟩)
      ∧ handle_command env st (.obj [("command", .str "model-info")])
          = ⟨[errResp "model-info" "No model loaded"], st, 0⟩)
    ∧ (∀ (st : ServerState) (m : ModelStruct), st.model = some m →
        st.capabilities.contains "audio" = false →
        ∀ p : String, p ≠ "" →
          handle_command env st
              (.obj [("command", .str "generate-transcript"), ("audio_path", .str p)])
            = ⟨[errResp "generate-transcript"
                  "Loaded model does not support audio transcription"], st, 0⟩
          ∧ handle_command env st
              (.obj [("command", .str "copilot-analyze"), ("audio_path", .str p)])
            = ⟨[errResp "copilot-analyze" "Model does not support audio analysis"], st, 0⟩) := by
  constructor
  · intro st hm
    refine ⟨fun c hcne => ⟨?_, ?_⟩, fun ms hne => ?_, fun p hne => ⟨?_, ?_⟩, ?_⟩
    · have hb : (c == "") = false := beq_eq_false_iff_ne.mpr hcne
      simp [handle_command, jget, jgetList, dispatchNamed, jtruthyOpt, jtruthy, ofH,
            generate_tags, hb, hm]
    · have hb : (c == "") = false := beq_eq_false_iff_ne.mpr hcne
      simp [handle_command, jget, jgetList, dispatchNamed, jtruthyOpt, jtruthy, ofH,
            summarize, hb, hm]
    · simp [handle_command, jget, jgetList, dispatchNamed, jtruthyOpt, jtruthy, ofH,
            chat, hne, hm]
    · have hb : (p == "") = false := beq_eq_false_iff_ne.mpr hne
      simp [handle_command, jget, jgetList, dispatchNamed, jtruthyOpt, jtruthy, ofH,
            generate_transcript, hb, hm]
    · have hb : (p == "") = false := beq_eq_false_iff_ne.mpr hne
      simp [handle_command, jget, jgetList, dispatchNamed, jtruthyOpt, jtruthy, ofH,
            copilot_analyze, hb, hm]
    · simp [handle_command, jget, jgetList, dispatchNamed, ofH, model_info, hm]
  · intro st m hm hc p hne
    have hb : (p == "") = false := beq_eq_false_iff_ne.mpr hne
    have hc' : "audio" ∉ st.capabilities := by simpa using hc
    constructor
    · simp [handle_command, jget, jgetList, dispatchNamed, jtruthyOpt, jtruthy, ofH,
            generate_transcript, hb, hm, hc']
    · simp [handle_command, jget, jgetList, dispatchNamed, jtruthyOpt, jtruthy, ofH,
            copilot_analyze, hb, hm, hc']

/-- Witness for C3 at concrete Sessions and commands: an unloaded Session for
the no-model half, and a loaded text-only Session for the missing-audio half. -/
theorem claim_C3_witness :
    initState.model = none
    ∧ ("x" : String) ≠ ""
    ∧ handle_command envNoOmni initState
        (.obj [("command", .str "generate-tags"), ("content", .str "x")])
        = ⟨[errResp "generate-tags" "No model loaded"], initState, 0⟩
    ∧ stLoadedText.model = some mPlain
    ∧ stLoadedText.capabilities.contains "audio" = false
    ∧ handle_command envNoOmni stLoadedText
        (.obj [("command", .str "copilot-analyze"), ("audio_path", .str "a.wav")])
        = ⟨[errResp "copilot-analyze" "Model does not support audio analysis"], stLoadedText, 0⟩ :=
  ⟨rfl, by decide,
   (((claim_C3_gating envNoOmni).1 initState rfl).1 "x" (by decide)).1,
   rfl, rfl,
   ((claim_C3_gating envNoOmni).2 stLoadedText mPlain rfl rfl "a.wav" (by decide)).2⟩

/-! ### Read-loop step lemmas (for the C8 and C9 claims) -/

lemma handle_shutdown (env : Env) (st : ServerState) (d : Json)
    (h : isShutdownCmd d = true) :
    handle_command env st d = ⟨[shutdownAck], st, 0⟩ := by
  unfold isShutdownCmd at h
  unfold handle_command
  cases hc : jget d "command" with
  | none => rw [hc] at h; exact absurd h (by simp)
  | some v =>
    rw [hc] at h
    cases v with
    | str c =>
      have hce : c = "shutdown" := by simpa using h
      subst hce
      rfl
    | null => exact nomatch h
    | bool b => exact nomatch h
    | num n => exact nomatch h
    | arr xs => exact nomatch h
    | obj fs => exact nomatch h

lemma runLoop_blank (env : Env) (st : ServerState) (line : String)
    (rest : List String) (h : pyStrip line = "") :
    runLoop env st (line :: rest) = runLoop env st rest := by
  simp only [runLoop]
  rw [if_pos h]

lemma runLoop_bad (env : Env) (st : ServerState) (line : String)
    (rest : List String) (e : String)
    (h1 : pyStrip line ≠ "") (h2 : json_loads (pyStrip line) = .error e) :
    runLoop env st (line :: rest)
      = ⟨invalidJsonResp e :: (runLoop env st rest).out,
         (runLoop env st rest).st, (runLoop env st rest).shutdown⟩ := by
  simp only [runLoop]
  rw [if_neg h1, h2]

lemma runLoop_nonobj (env : Env) (st : ServerState) (line : String)
    (rest : List String) (d : Json)
    (h1 : pyStrip line ≠ "") (h2 : json_loads (pyStrip line) = .ok d)
    (h3 : isObj d = false) :
    runLoop env st (line :: rest)
      = ⟨unexpectedResp :: (runLoop env st rest).out,
         (runLoop env st rest).st, (runLoop env st rest).shutdown⟩ := by
  simp only [runLoop]
  rw [if_neg h1, h2]
  cases d <;> first | rfl | exact absurd h3 (by simp [isObj])

lemma runLoop_obj (env : Env) (st : ServerState) (line : String)
    (rest : List String) (fs : List (String × Json))
    (h1 : pyStrip line ≠ "") (h2 : json_loads (pyStrip line) = .ok (.obj fs))
    (h3 : isShutdownCmd (.obj fs) = false) :
    runLoop env st (line :: rest)
      = ⟨(handle_command env st (.obj fs)).out
           ++ (runLoop env (handle_command env st (.obj fs)).st rest).out,
         (runLoop env (handle_command env st (.obj fs)).st rest).st,
         (runLoop env (handle_command env st (.obj fs)).st rest).shutdown⟩ := by
  simp only [runLoop]
  rw [if_neg h1, h2]
  simp [h3]

lemma runLoop_shutdown_cmd (env : Env) (st : ServerState) (line : String)
    (rest : List String) (fs : List (String × Json))
    (h1 : pyStrip line ≠ "") (h2 : json_loads (pyStrip line) = .ok (.obj fs))
    (h3 : isShutdownCmd (.obj fs) = true) :
    runLoop env st (line :: rest)
      = ⟨(handle_command env st (.obj fs)).out, (handle_command env st (.obj fs)).st, true⟩ := by
  simp only [runLoop]
  rw [if_neg h1, h2]
  simp [h3]

lemma run_shutdown_line (env : Env) (st : ServerState) (sd : String)
    (rest : List String) (hsd : isShutdownLine sd = true) :
    runLoop env st (sd :: rest) = ⟨[shutdownAck], st, true⟩ := by
  unfold isShutdownLine at hsd
  simp only [Bool.and_eq_true] at hsd
  obtain ⟨h1, h2⟩ := hsd
  have hne : pyStrip sd ≠ "" := by simpa using h1
  cases hj : json_loads (pyStrip sd) with
  | error e => rw [hj] at h2; exact absurd h2 (by simp)
  | ok d =>
    rw [hj] at h2
    cases d with
    | obj fs =>
      rw [runLoop_shutdown_cmd env st sd rest fs hne hj h2,
          handle_shutdown env st _ h2]
    | null => exact nomatch h2
    | bool b => exact nomatch h2
    | num n => exact nomatch h2
    | str s => exact nomatch h2
    | arr xs => exact nomatch h2

lemma run_append_shutdown (env : Env) (sd : String) (post : List String)
    (hsd : isShutdownLine sd = true) :
    ∀ (pre : List String) (st : ServerState),
      runLoop env st (pre ++ sd :: post) = runLoop env st (pre ++ [sd]) := by
  intro pre
  induction pre with
  | nil =>
    intro st
    simp only [List.nil_append]
    rw [run_shutdown_line env st sd post hsd, run_shutdown_line env st sd [] hsd]
  | cons l pre ih =>
    intro st
    simp only [List.cons_append]
    by_cases hbl : pyStrip l = ""
    · rw [runLoop_blank env st l (pre ++ sd :: post) hbl,
          runLoop_blank env st l (pre ++ [sd]) hbl]
      exact ih st
    · cases hj : json_loads (pyStrip l) with
      | error e =>
        rw [runLoop_bad env st l (pre ++ sd :: post) e hbl hj,
            runLoop_bad env st l (pre ++ [sd]) e hbl hj, ih st]
      | ok d =>
        cases hobj : isObj d with
        | false =>
          rw [runLoop_nonobj env st l (pre ++ sd :: post) d hbl hj hobj,
              runLoop_nonobj env st l (pre ++ [sd]) d hbl hj hobj, ih st]
        | true =>
          cases d with
          | obj fs =>
            cases hS : isShutdownCmd (.obj fs) with
            | true =>
              rw [runLoop_shutdown_cmd env st l (pre ++ sd :: post) fs hbl hj hS,
                  runLoop_shutdown_cmd env st l (pre ++ [sd]) fs hbl hj hS]
            | false =>
              rw [runLoop_obj env st l (pre ++ sd :: post) fs hbl hj hS,
                  runLoop_obj env st l (pre ++ [sd]) fs hbl hj hS,
                  ih (handle_command env st (.obj fs)).st]
          | null => exact nomatch hobj
          | bool b => exact nomatch hobj
          | num n => exact nomatch hobj
          | str s => exact nomatch hobj
          | arr xs => exact nomatch hobj

lemma run_noshutdown_append (env : Env) (sd : String)
    (hsd : isShutdownLine sd = true) :
    ∀ (pre : List String) (st : ServerState),
      (∀ l ∈ pre, isShutdownLine l = false) →
      runLoop env st (pre ++ [sd])
        = ⟨(runLoop env st pre).out ++ [shutdownAck], (runLoop env st pre).st, true⟩ := by
  intro pre
  induction pre with
  | nil =>
    intro st _
    simp only [List.nil_append]
    rw [run_shutdown_line env st sd [] hsd]
    simp [runLoop]
  | cons l pre ih =>
    intro st hns
    have hl : isShutdownLine l = false := hns l (List.mem_cons_self l pre)
    have hrest : ∀ l' ∈ pre, isShutdownLine l' = false :=
      fun l' h' => hns l' (List.mem_cons_of_mem l h')
    simp only [List.cons_append]
    by_cases hbl : pyStrip l = ""
    · rw [runLoop_blank env st l (pre ++ [sd]) hbl, runLoop_blank env st l pre hbl]
      exact ih st hrest
    · cases hj : json_loads (pyStrip l) with
      | error e =>
        rw [runLoop_bad env st l (pre ++ [sd]) e hbl hj,
            runLoop_bad env st l pre e hbl hj, ih st hrest]
        simp
      | ok d =>
        cases hobj : isObj d with
        | false =>
          rw [runLoop_nonobj env st l (pre ++ [sd]) d hbl hj hobj,
              runLoop_nonobj env st l pre d hbl hj hobj, ih st hrest]
          simp
        | true =>
          cases d with
          | obj fs =>
            cases hS : isShutdownCmd (.obj fs) with
            | true =>
              exfalso
              have hline : isShutdownLine l = true := by
                unfold isShutdownLine
                rw [hj]
                have hbb : (pyStrip l == "") = false := beq_eq_false_iff_ne.mpr hbl
                simp [hbb, hS]
              rw [hline] at hl
              exact absurd hl (by simp)
            | false =>
              rw [runLoop_obj env st l (pre ++ [sd]) fs hbl hj hS,
                  runLoop_obj env st l pre fs hbl hj hS,
                  ih (handle_command env st (.obj fs)).st hrest]
              simp
          | null => exact nomatch hobj
          | bool b => exact nomatch hobj
          | num n => exact nomatch hobj
          | str s => exact nomatch hobj
          | arr xs => exact nomatch hobj

/-- C8: if the stream is any prefix free of shutdown lines, then a shutdown
command line, then arbitrary further lines, the read loop emits the prefix's
outputs followed by the shutdown acknowledgment, exits via the shutdown break
(flag `true`), and produces a result independent of everything after the
shutdown line — no later line is processed. -/
theorem claim_C8_shutdown (env : Env) (st : ServerState)
    (pre post : List String) (sd : String)
    (hsd : isShutdownLine sd = true)
    (hpre : ∀ l ∈ pre, isShutdownLine l = false) :
    runLoop env st (pre ++ sd :: post)
      = ⟨(runLoop env st pre).out ++ [shutdownAck], (runLoop env st pre).st, true⟩
    ∧ runLoop env st (pre ++ sd :: post) = runLoop env st (pre ++ [sd]) := by
  have h1 := run_append_shutdown env sd post hsd pre st
  exact ⟨h1.trans (run_noshutdown_append env sd hsd pre st hpre), h1⟩

/-- Witness for C8 on a concrete stream: one ordinary command, a shutdown,
then a trailing command that must not be processed. -/
theorem claim_C8_witness :
    isShutdownLine "\x7b\"command\": \"shutdown\"\x7d" = true
    ∧ (∀ l ∈ ["\x7b\"command\": \"check-availability\"\x7d"], isShutdownLine l = false)
    ∧ runLoop envNoOmni initState
        (["\x7b\"command\": \"check-availability\"\x7d"]
          ++ "\x7b\"command\": \"shutdown\"\x7d" :: ["\x7b\"command\": \"model-info\"\x7d"])
        = ⟨(runLoop envNoOmni initState ["\x7b\"command\": \"check-availability\"\x7d"]).out
             ++ [shutdownAck],
           (runLoop envNoOmni initState ["\x7b\"command\": \"check-availability\"\x7d"]).st,
           true⟩ :=
  ⟨by decide, by decide,
   (claim_C8_shutdown envNoOmni initState
      ["\x7b\"command\": \"check-availability\"\x7d"]
      ["\x7b\"command\": \"model-info\"\x7d"]
      "\x7b\"command\": \"shutdown\"\x7d" (by decide) (by decide)).1⟩

/-- C9: a non-blank line that is not valid JSON makes the loop emit exactly
one `type: error` response carrying the JSON error message, leave the Session
unchanged (the remaining lines are processed from the same state), and
continue with the next line. -/
theorem claim_C9_bad_json (env : Env) (st : ServerState) (line : String)
    (rest : List String) (e : String)
    (h1 : pyStrip line ≠ "") (h2 : json_loads (pyStrip line) = .error e) :
    runLoop env st (line :: rest)
      = ⟨invalidJsonResp e :: (runLoop env st rest).out,
         (runLoop env st rest).st, (runLoop env st rest).shutdown⟩ :=
  runLoop_bad env st line rest e h1 h2

/-- Witness for C9: a concrete malformed line followed by a live command. -/
theorem claim_C9_witness :
    pyStrip "\x7bbad" ≠ ""
    ∧ json_loads (pyStrip "\x7bbad")
        = .error "Expecting property name enclosed in double quotes"
    ∧ runLoop envNoOmni initState ["\x7bbad", "\x7b\"command\": \"check-availability\"\x7d"]
        = ⟨invalidJsonResp "Expecting property name enclosed in double quotes"
             :: (runLoop envNoOmni initState ["\x7b\"command\": \"check-availability\"\x7d"]).out,
           (runLoop envNoOmni initState ["\x7b\"command\": \"check-availability\"\x7d"]).st,
           (runLoop envNoOmni initState ["\x7b\"command\": \"check-availability\"\x7d"]).shutdown⟩ :=
  ⟨by decide, rfl,
   claim_C9_bad_json envNoOmni initState "\x7bbad"
     ["\x7b\"command\": \"check-availability\"\x7d"]
     "Expecting property name enclosed in double quotes" (by decide) rfl⟩

end MlxServer
